import Mathlib

/-
  Verification development for the GLM5 trading bot core.

  Shallow embedding of the decision/execution pipeline in Lean 4 over exact
  rationals (ℚ).  JavaScript `number` arithmetic is modelled by real (here:
  rational) arithmetic; places where the source can produce IEEE special
  values (division by zero giving Infinity/NaN) are marked by comments and
  modelled by the branch the surrounding code actually takes for them.
  Fallible code (functions that `throw`) is modelled with `Except String`.
  External I/O (venue REST calls) is modelled by oracle structures whose
  fields give the outcome of each call, and the functions additionally
  return the list of venue calls they perform.
-/

-- ==================== JS-number helpers ====================

/-- Model of JavaScript `Number.prototype.toFixed(f)` (read back as a number):
rounding to `f` decimal digits with ties going to the larger value, which is
`⌊x·10^f + 1/2⌋ / 10^f`. -/
def jsToFixed (x : ℚ) (f : ℕ) : ℚ := (⌊x * 10 ^ f + 1/2⌋ : ℚ) / 10 ^ f

/-- Model of `Math.ceil(-Math.log10 q)` for `q > 0`:
`⌈-log10 q⌉ = -⌊log10 q⌋ = -(Int.log 10 q)`. -/
def ceilNegLog10 (q : ℚ) : ℤ := -(Int.log 10 q)

-- ==================== utils.ts ====================

/-- Candle/OHLCV record (`Candle` in `types.ts`); `open` is a Lean keyword so
the field is called `open_`. -/
structure Candle where
  timestamp : ℕ
  open_ : ℚ
  high : ℚ
  low : ℚ
  close : ℚ
  volume : ℚ
deriving DecidableEq

/-- True ranges of consecutive candle pairs: the loop
`for (let i = 1; i < candles.length; i++)` in `calculate_atr`, pairing each
candle with its predecessor. -/
def trueRanges (candles : List Candle) : List ℚ :=
  (candles.zip candles.tail).map fun pc =>
    max (pc.2.high - pc.2.low) (max |pc.2.high - pc.1.close| |pc.2.low - pc.1.close|)

/-- `calculate_atr` from `utils.ts`: returns 0 on insufficient data, else the
SMA of the first `period` true ranges followed by Wilder smoothing over the
rest.  (For `period = 0` the source would divide 0 by 0 giving NaN; in ℚ this
is 0.  All claims use `period ≥ 1`.) -/
def calculate_atr (candles : List Candle) (period : ℕ) : ℚ :=
  if candles.length < period + 1 then 0
  else
    let trs := trueRanges candles
    if trs.length < period then 0
    else
      let atr0 := ((trs.take period).foldl (fun a b => a + b) 0) / (period : ℚ)
      (trs.drop period).foldl (fun atr tr => (atr * ((period : ℚ) - 1) + tr) / (period : ℚ)) atr0

/-- Rounding modes of `round_to_tick_size` / `round_to_qty_step`. -/
inductive RoundMode where
  | up
  | down
  | nearest
deriving DecidableEq

/-- `round_to_qty_step` from `utils.ts`.  Throws when `qtyStep ≤ 0`; otherwise
scales by `multiplier = 1/qtyStep`, applies the rounding mode
(`Math.ceil`/`Math.floor`/`Math.round`, the latter being ties-up, i.e.
`⌊x + 1/2⌋`), and finally passes the result through
`Number(rounded.toFixed(precision))` with
`precision = Math.max(0, Math.ceil(-Math.log10(qtyStep)))`. -/
def round_to_qty_step (quantity qtyStep : ℚ) (roundingMode : RoundMode) : Except String ℚ :=
  if qtyStep ≤ 0 then .error "Quantity step must be positive"
  else
    let precision := (max 0 (ceilNegLog10 qtyStep)).toNat
    let multiplier := 1 / qtyStep
    let rounded : ℚ :=
      match roundingMode with
      | .up => (⌈quantity * multiplier⌉ : ℚ) / multiplier
      | .down => (⌊quantity * multiplier⌋ : ℚ) / multiplier
      | .nearest => (⌊quantity * multiplier + 1/2⌋ : ℚ) / multiplier
    .ok (jsToFixed rounded precision)

-- ==================== risk-physics.ts ====================

/-- Signal direction. -/
inductive Direction where
  | LONG
  | SHORT
deriving DecidableEq

/-- Trading `Signal` (`types.ts`); only fields the embedded code reads or
writes are kept.  Optional TS fields are `Option`s. -/
structure Signal where
  id : Option String := none
  symbol : String
  strategy : String := ""
  direction : Direction
  win_probability : ℚ := 0
  expected_move_pct : ℚ := 0
  regime : String := "RANGING"
  ev_score : Option ℚ := none
  kelly_score : Option ℚ := none
  confidence : Option ℚ := none
  entry_price : Option ℚ := none
  current_price : Option ℚ := none
  atr : Option ℚ := none
  timestamp : ℕ := 0

/-- `RiskLevels` (`types.ts`).  The source field `riskRewardRatio` is named
`riskReward` here. -/
structure RiskLevels where
  entryPrice : ℚ
  takeProfitPrice : ℚ
  stopLossPrice : ℚ
  breakEvenPrice : ℚ
  riskReward : ℚ
  atrMultiplier : ℚ

/-- `PositionSizing` (`types.ts`). -/
structure PositionSizing where
  capital : ℚ
  positionSize : ℚ
  quantity : ℚ
  leverage : ℚ

/-- `RiskPhysicsConfig` (`types.ts`). -/
structure RiskPhysicsConfig where
  maxCapitalPerTrade : ℚ
  maxLeverage : ℚ
  minRiskReward : ℚ
  takerFee : ℚ
  defaultAtrMultiplierTp : ℚ
  defaultAtrMultiplierSl : ℚ

/-- `DEFAULT_RISK_PHYSICS_CONFIG` (`types.ts`). -/
def DEFAULT_RISK_PHYSICS_CONFIG : RiskPhysicsConfig :=
  { maxCapitalPerTrade := 15
    maxLeverage := 10
    minRiskReward := 3/2
    takerFee := 55/100000
    defaultAtrMultiplierTp := 2
    defaultAtrMultiplierSl := 3/2 }

namespace RiskPhysics

/-- `RiskPhysics.calculate_break_even`. -/
def calculate_break_even (cfg : RiskPhysicsConfig) (entryPrice : ℚ) (direction : Direction) : ℚ :=
  let totalFeePct := cfg.takerFee * 2
  match direction with
  | .LONG => entryPrice * (1 + totalFeePct)
  | .SHORT => entryPrice * (1 - totalFeePct)

/-- `RiskPhysics.calculate_tp_sl`.  The `??` fallbacks on
`current_price`/`entry_price`/`atr` and the two `throw`s are modelled
exactly; custom multipliers default to the config values. -/
def calculate_tp_sl (cfg : RiskPhysicsConfig) (signal : Signal)
    (customTpMultiplier customSlMultiplier : Option ℚ) : Except String RiskLevels :=
  let entryPrice := signal.current_price.getD (signal.entry_price.getD 0)
  let atr := signal.atr.getD 0
  if entryPrice = 0 then
    .error "Signal must have current_price or entry_price for TP/SL calculation"
  else if atr = 0 then
    .error "Signal must have atr for TP/SL calculation"
  else
    let tpMultiplier := customTpMultiplier.getD cfg.defaultAtrMultiplierTp
    let slMultiplier := customSlMultiplier.getD cfg.defaultAtrMultiplierSl
    let tpDistance := atr * tpMultiplier
    let slDistance := atr * slMultiplier
    let takeProfitPrice :=
      match signal.direction with
      | .LONG => entryPrice + tpDistance
      | .SHORT => entryPrice - tpDistance
    let stopLossPrice :=
      match signal.direction with
      | .LONG => entryPrice - slDistance
      | .SHORT => entryPrice + slDistance
    .ok
      { entryPrice := entryPrice
        takeProfitPrice := takeProfitPrice
        stopLossPrice := stopLossPrice
        breakEvenPrice := calculate_break_even cfg entryPrice signal.direction
        riskReward := if 0 < slDistance then tpDistance / slDistance else 0
        atrMultiplier := slMultiplier }

/-- `RiskPhysics.calculate_position_size`.  In the source, when
`riskDistance = 0` the quotient `maxRiskPerTrade / riskDistance` is IEEE
`Infinity`, so `Math.min` always selects the capital bound
`maxCapital / currentPrice`; this is modelled by the explicit branch.
`tickSize` is accepted but unused, as in the source. -/
def calculate_position_size (cfg : RiskPhysicsConfig) (signal : Signal)
    (riskLevels : RiskLevels) (tickSize qtyStep : ℚ) : Except String PositionSizing :=
  let _ := tickSize
  let maxCapital := cfg.maxCapitalPerTrade
  let currentPrice := signal.current_price.getD (signal.entry_price.getD 0)
  if currentPrice = 0 then
    .error "Signal must have current_price or entry_price for position sizing"
  else
    let riskDistance := |currentPrice - riskLevels.stopLossPrice|
    let maxRiskPerTrade := maxCapital * (2/100)
    let maxPositionByCapital := maxCapital / currentPrice
    let positionSize :=
      if riskDistance = 0 then maxPositionByCapital
      else min (maxRiskPerTrade / riskDistance) maxPositionByCapital
    match round_to_qty_step positionSize qtyStep .down with
    | .error e => .error e
    | .ok quantity =>
      let positionValue := quantity * currentPrice
      let leverage : ℚ := if maxCapital < positionValue then (⌈positionValue / maxCapital⌉ : ℚ) else 1
      .ok
        { capital := maxCapital
          positionSize := positionValue
          quantity := quantity
          leverage := min leverage cfg.maxLeverage }

end RiskPhysics

-- ==================== alpha-ranker.ts ====================

/-- A single order-book level. -/
structure OrderBookLevel where
  price : ℚ
  quantity : ℚ

/-- Order book (`types.ts`), reduced to the fields the evaluator reads. -/
structure OrderBook where
  symbol : String
  bids : List OrderBookLevel
  asks : List OrderBookLevel

/-- `AlphaRankerConfig` (`types.ts`). -/
structure AlphaRankerConfig where
  minEvScore : ℚ
  minKellyScore : ℚ
  takerFee : ℚ
  slippageBuffer : ℚ

/-- `DEFAULT_ALPHA_RANKER_CONFIG` (`types.ts`). -/
def DEFAULT_ALPHA_RANKER_CONFIG : AlphaRankerConfig :=
  { minEvScore := 2/100, minKellyScore := 0, takerFee := 55/100000, slippageBuffer := 5/100 }

/-- `EvaluatedSignal` (`types.ts`): the TS object spreads the signal and adds
the evaluation metrics; here the base signal is a field. -/
structure EvaluatedSignal where
  signal : Signal
  spread_penalty : ℚ
  gross_roi : ℚ
  round_trip_fees : ℚ
  net_roi : ℚ
  ev_score : ℚ
  kelly_score : ℚ
  reward_to_risk : ℚ
  risk_pct : ℚ

namespace AlphaRanker

/-- `AlphaRanker.calculate_spread_penalty`. -/
def calculate_spread_penalty (orderBook : OrderBook) : ℚ :=
  let bestBid := ((orderBook.bids.head?).map OrderBookLevel.price).getD 0
  let bestAsk := ((orderBook.asks.head?).map OrderBookLevel.price).getD 0
  if bestBid = 0 ∨ bestAsk = 0 then 0
  else
    let midPrice := (bestBid + bestAsk) / 2
    (bestAsk - bestBid) / midPrice * 100

/-- `AlphaRanker.calculate_effective_entry`, returning
`(entryPrice, spreadCost)`. -/
def calculate_effective_entry (cfg : AlphaRankerConfig) (direction : Direction)
    (orderBook : OrderBook) : ℚ × ℚ :=
  let bestBid := ((orderBook.bids.head?).map OrderBookLevel.price).getD 0
  let bestAsk := ((orderBook.asks.head?).map OrderBookLevel.price).getD 0
  if bestBid = 0 ∨ bestAsk = 0 then (0, 0)
  else
    let midPrice := (bestBid + bestAsk) / 2
    let slippagePct := cfg.slippageBuffer
    match direction with
    | .LONG =>
      let entryPrice := bestAsk * (1 + slippagePct / 100)
      (entryPrice, entryPrice - midPrice)
    | .SHORT =>
      let entryPrice := bestBid * (1 - slippagePct / 100)
      (entryPrice, midPrice - entryPrice)

/-- `AlphaRanker.calculate_round_trip_fees`. -/
def calculate_round_trip_fees (cfg : AlphaRankerConfig) (entryValue : ℚ) : ℚ :=
  entryValue * cfg.takerFee + entryValue * cfg.takerFee

/-- `AlphaRanker.evaluate_signal`.  The effective entry price is computed (and
used only for the dead `targetPrice` local in the source); the capital used
for the fee base is the hard-coded 15 USDT. -/
def evaluate_signal (cfg : AlphaRankerConfig) (signal : Signal) (orderBook : OrderBook) :
    EvaluatedSignal :=
  let _ := calculate_effective_entry cfg signal.direction orderBook
  let spreadPenalty := calculate_spread_penalty orderBook
  let grossRoi := signal.expected_move_pct
  let positionValue : ℚ := 15
  let roundTripFees := calculate_round_trip_fees cfg positionValue
  let feesAsPct := roundTripFees / positionValue * 100
  let netRoi := grossRoi - spreadPenalty - feesAsPct
  let atr := signal.atr.getD 0
  let currentPrice := signal.current_price.getD 0
  let riskPct :=
    if 0 < atr ∧ 0 < currentPrice then atr / currentPrice * 100
    else signal.expected_move_pct / 2
  let rewardToRisk := if 0 < riskPct then netRoi / riskPct else 0
  let winProb := signal.win_probability
  let evScore := winProb * netRoi - (1 - winProb) * riskPct
  let kellyScore :=
    if 0 < rewardToRisk then max 0 (min (1/4) (winProb - (1 - winProb) / rewardToRisk))
    else 0
  { signal := signal
    spread_penalty := spreadPenalty
    gross_roi := grossRoi
    round_trip_fees := feesAsPct
    net_roi := netRoi
    ev_score := evScore
    kelly_score := kellyScore
    reward_to_risk := rewardToRisk
    risk_pct := riskPct }

/-- Combined ranking score used by the sort comparator in
`evaluate_and_sort`: `ev_score * 0.6 + kelly_score * 100 * 0.4`. -/
def combinedScore (s : EvaluatedSignal) : ℚ :=
  s.ev_score * (6/10) + s.kelly_score * 100 * (4/10)

/-- The JS comparator `(a, b) => scoreB - scoreA` as a `Bool` "a may precede
b" relation: `a` may precede `b` iff `score b ≤ score a` (descending). -/
def signalLE (a b : EvaluatedSignal) : Bool :=
  decide (combinedScore b ≤ combinedScore a)

/-- The filter predicate of `evaluate_and_sort`: minimum EV score, minimum
Kelly score, strictly positive net ROI. -/
def keepSignal (cfg : AlphaRankerConfig) (s : EvaluatedSignal) : Bool :=
  decide (cfg.minEvScore ≤ s.ev_score) && decide (cfg.minKellyScore ≤ s.kelly_score) &&
    decide (0 < s.net_roi)

/-- `AlphaRanker.evaluate_and_sort`: evaluate every signal, filter by the
thresholds, and sort with the descending comparator.
`Array.prototype.sort` is specified to be stable (ES2019), so it is modelled
by the stable `List.mergeSort`. -/
def evaluate_and_sort (cfg : AlphaRankerConfig) (signals : List Signal) (orderBook : OrderBook) :
    List EvaluatedSignal :=
  (((signals.map fun s => evaluate_signal cfg s orderBook).filter (keepSignal cfg)).mergeSort
    signalLE)

/-- `AlphaRanker.pick_apex_signal`. -/
def pick_apex_signal (evaluatedSignals : List EvaluatedSignal) : Option EvaluatedSignal :=
  evaluatedSignals.head?

/-- `AlphaRanker.calculate_kelly_fraction`: half-Kelly clamped to `[0, 0.25]`,
and 0 whenever `rewardToRisk ≤ 0`. -/
def calculate_kelly_fraction (winProbability rewardToRisk : ℚ) : ℚ :=
  if rewardToRisk ≤ 0 then 0
  else
    let fullKelly := winProbability - (1 - winProbability) / rewardToRisk
    let halfKelly := fullKelly / 2
    max 0 (min (1/4) halfKelly)

end AlphaRanker

-- ==================== execution-router.ts ====================

/-- Supported venues. -/
inductive Exchange where
  | mexc
  | bybit
deriving DecidableEq

/-- `TradeSignal` of the execution router. -/
inductive TradeSignal where
  | LONG
  | SHORT
  | CLOSE_LONG
  | CLOSE_SHORT
deriving DecidableEq

/-- `ExecutionRouterConfig` after the constructor's `??`-defaults have been
applied.  `clientConfigured` records whether API credentials for the default
exchange were provided (i.e. whether the corresponding client is non-null). -/
structure RouterConfig where
  defaultExchange : Exchange
  defaultLeverage : ℚ
  defaultRiskPercent : ℚ
  defaultRewardRisk : ℚ
  maxCapitalPerTrade : ℚ
  minCapitalRequired : ℚ
  clientConfigured : Bool

/-- Result of `calculateRiskPhysics` (the router's `RiskPhysics` interface). -/
structure RouterRiskPhysics where
  entryPrice : ℚ
  stopLoss : ℚ
  takeProfit : ℚ
  positionSize : ℚ
  positionValue : ℚ
  riskAmount : ℚ
  rewardAmount : ℚ
  riskPercent : ℚ
  leverage : ℚ
  liquidationPrice : ℚ
  isValid : Bool
  validationErrors : List String

/-- `ExecutionRouter.calculateRiskPhysics`.  Validation-error strings are kept
static (the source interpolates the offending numbers into them).  When
`atr = 0` the source quotient `riskAmount / stopLossDistance` is IEEE
Infinity (or NaN); every such run is invalid in the source and in this model
(`positionSize` 0 fails the `0 < positionSize` conjunct), matching the claims
at the level of `isValid`/statuses. -/
def calculateRiskPhysics (cfg : RouterConfig) (signal : TradeSignal)
    (currentPrice atr walletBalance leverage riskPercent rewardRisk : ℚ) : RouterRiskPhysics :=
  let riskAmount := walletBalance * (riskPercent / 100)
  let stopLossDistance := atr * (3/2)
  let isBuySide := signal = TradeSignal.LONG ∨ signal = TradeSignal.CLOSE_SHORT
  let stopLoss0 := if isBuySide then currentPrice - stopLossDistance else currentPrice + stopLossDistance
  let takeProfit :=
    if isBuySide then currentPrice + stopLossDistance * rewardRisk
    else currentPrice - stopLossDistance * rewardRisk
  let slFellBack := stopLoss0 ≤ 0
  let stopLoss := if slFellBack then currentPrice * (95/100) else stopLoss0
  let errs0 : List String :=
    if slFellBack then ["Stop loss calculated as negative, using 5% fallback"] else []
  let positionSize0 := riskAmount / stopLossDistance
  let positionValue0 := positionSize0 * currentPrice
  let marginRequired := positionValue0 / leverage
  let errs1 :=
    errs0 ++ (if marginRequired < cfg.minCapitalRequired then ["Margin required below minimum"] else [])
  let scaledDown := cfg.maxCapitalPerTrade < positionValue0
  let positionSize := if scaledDown then cfg.maxCapitalPerTrade / currentPrice else positionSize0
  let errs := errs1 ++ (if scaledDown then ["Position size scaled down to max capital"] else [])
  let liquidationPrice :=
    if signal = TradeSignal.LONG then currentPrice * (1 - (9/10) / leverage)
    else currentPrice * (1 + (9/10) / leverage)
  let isValid :=
    errs.isEmpty && decide (cfg.minCapitalRequired ≤ marginRequired) && decide (0 < positionSize)
  { entryPrice := currentPrice
    stopLoss := stopLoss
    takeProfit := takeProfit
    positionSize := positionSize
    positionValue := positionSize * currentPrice
    riskAmount := riskAmount
    rewardAmount := riskAmount * rewardRisk
    riskPercent := riskPercent
    leverage := leverage
    liquidationPrice := liquidationPrice
    isValid := isValid
    validationErrors := errs }

/-- Parameters of `ExecutionRouter.executeTrade`; the three optional fields
default to the router config values at the call site, as in the TS signature. -/
structure TradeParams where
  signal : TradeSignal
  symbol : String
  currentPrice : ℚ
  atr : ℚ
  walletBalance : ℚ
  leverage : Option ℚ := none
  riskPercent : Option ℚ := none
  rewardRisk : Option ℚ := none

/-- Instrument precision data `{tickSize, qtyStep, minNotional}`. -/
structure InstrumentInfo where
  tickSize : ℚ
  qtyStep : ℚ
  minNotional : ℚ

/-- Acknowledgement returned by a venue `placeOrder` call, reduced to the
fields the router reads back. -/
structure OrderAck where
  orderId : String
  status : String

/-- Oracle for the venue calls `executeTrade` can make. -/
structure RouterEnv where
  instrumentLookup : Except String (Option InstrumentInfo)
  setLeverageResult : Except String Unit
  placeOrderResult : Except String OrderAck

/-- Venue calls made by the router, for observing which external requests a
run performs. -/
inductive RouterCall where
  | instrumentInfo (symbol : String)
  | setLeverage (symbol : String)
  | placeOrder (symbol : String)
deriving DecidableEq

/-- The router's uniform `TradeResult`.  Timestamps are irrelevant to the
claims and fixed to 0. -/
structure TradeResult where
  success : Bool
  exchange : Exchange
  orderId : Option String
  symbol : String
  side : String
  type : String
  quantity : ℚ
  price : Option ℚ
  takeProfit : Option ℚ
  stopLoss : Option ℚ
  status : String
  message : String
  timestamp : ℕ

/-- The router's private `roundPrice`: `Math.round(price·10^p)/10^p` with
`p = Math.ceil(-Math.log10 tickSize)` (JS `Math.round` is ties-up). -/
def routerRoundPrice (price tickSize : ℚ) : ℚ :=
  let m : ℚ := (10 : ℚ) ^ ceilNegLog10 tickSize
  (⌊price * m + 1/2⌋ : ℚ) / m

/-- The router's private `roundQty`: `Math.floor(qty·10^p)/10^p`. -/
def routerRoundQty (qty qtyStep : ℚ) : ℚ :=
  let m : ℚ := (10 : ℚ) ^ ceilNegLog10 qtyStep
  (⌊qty * m⌋ : ℚ) / m

/-- `ExecutionRouter.getInstrumentInfo` for one `(exchange, symbol)` with the
cache state passed in: a cache hit returns without any venue call; a miss
performs the lookup (when the client exists), falling back to the permissive
defaults `{0.01, 0.001, 5}` when the lookup yields nothing.  A thrown lookup
(`Except.error`) propagates to `executeTrade`'s catch.  (The source also
stores the fetched value back into the cache; that write is process state
not observed by any claim.) -/
def getInstrumentInfoR (cfg : RouterConfig) (env : RouterEnv) (cache : Option InstrumentInfo)
    (symbol : String) : Except String InstrumentInfo × List RouterCall :=
  match cache with
  | some info => (.ok info, [])
  | none =>
    if cfg.clientConfigured then
      match env.instrumentLookup with
      | .error e => (.error e, [RouterCall.instrumentInfo symbol])
      | .ok (some info) => (.ok info, [RouterCall.instrumentInfo symbol])
      | .ok none =>
        (.ok { tickSize := 1/100, qtyStep := 1/1000, minNotional := 5 },
          [RouterCall.instrumentInfo symbol])
    else (.ok { tickSize := 1/100, qtyStep := 1/1000, minNotional := 5 }, [])

/-- `ExecutionRouter.executeMexcTrade`: the client-missing `throw` lands in
`executeTrade`'s catch (modelled by the ERROR result here); a thrown
`placeOrder` is caught locally and becomes an ERROR result. -/
def executeMexcTrade (cfg : RouterConfig) (env : RouterEnv) (params : TradeParams)
    (qty price takeProfit stopLoss : ℚ) : TradeResult × List RouterCall :=
  let side := if params.signal = TradeSignal.LONG ∨ params.signal = TradeSignal.CLOSE_SHORT
    then "BUY" else "SELL"
  if cfg.clientConfigured = false then
    ({ success := false, exchange := .mexc, orderId := none, symbol := params.symbol,
       side := side, type := "MARKET", quantity := 0, price := none, takeProfit := none,
       stopLoss := none, status := "ERROR",
       message := "Trade execution error: MEXC client not configured", timestamp := 0 }, [])
  else
    match env.placeOrderResult with
    | .ok order =>
      ({ success := true, exchange := .mexc, orderId := some order.orderId,
         symbol := params.symbol, side := side, type := "MARKET", quantity := qty,
         price := some price, takeProfit := some takeProfit, stopLoss := some stopLoss,
         status := order.status, message := "Order placed successfully on MEXC",
         timestamp := 0 }, [RouterCall.placeOrder params.symbol])
    | .error e =>
      ({ success := false, exchange := .mexc, orderId := none, symbol := params.symbol,
         side := side, type := "MARKET", quantity := qty, price := none, takeProfit := none,
         stopLoss := none, status := "ERROR", message := "MEXC order error: " ++ e,
         timestamp := 0 }, [RouterCall.placeOrder params.symbol])

/-- `ExecutionRouter.executeBybitTrade`: sets leverage first, then places the
order; either failure is caught and becomes an ERROR result.  The Bybit
client fabricates `orderStatus = "Created"` for accepted orders. -/
def executeBybitTrade (cfg : RouterConfig) (env : RouterEnv) (params : TradeParams)
    (qty price takeProfit stopLoss : ℚ) : TradeResult × List RouterCall :=
  let side := if params.signal = TradeSignal.LONG ∨ params.signal = TradeSignal.CLOSE_SHORT
    then "Buy" else "Sell"
  if cfg.clientConfigured = false then
    ({ success := false, exchange := .bybit, orderId := none, symbol := params.symbol,
       side := side, type := "Market", quantity := 0, price := none, takeProfit := none,
       stopLoss := none, status := "ERROR",
       message := "Trade execution error: Bybit client not configured", timestamp := 0 }, [])
  else
    match env.setLeverageResult with
    | .error e =>
      ({ success := false, exchange := .bybit, orderId := none, symbol := params.symbol,
         side := side, type := "Market", quantity := qty, price := none, takeProfit := none,
         stopLoss := none, status := "ERROR", message := "Bybit order error: " ++ e,
         timestamp := 0 }, [RouterCall.setLeverage params.symbol])
    | .ok _ =>
      match env.placeOrderResult with
      | .ok order =>
        ({ success := true, exchange := .bybit, orderId := some order.orderId,
           symbol := params.symbol, side := side, type := "Market", quantity := qty,
           price := some price, takeProfit := some takeProfit, stopLoss := some stopLoss,
           status := "Created", message := "Order placed successfully on Bybit",
           timestamp := 0 },
          [RouterCall.setLeverage params.symbol, RouterCall.placeOrder params.symbol])
      | .error e =>
        ({ success := false, exchange := .bybit, orderId := none, symbol := params.symbol,
           side := side, type := "Market", quantity := qty, price := none, takeProfit := none,
           stopLoss := none, status := "ERROR", message := "Bybit order error: " ++ e,
           timestamp := 0 },
          [RouterCall.setLeverage params.symbol, RouterCall.placeOrder params.symbol])

/-- `ExecutionRouter.executeTrade`: risk physics → validity check → instrument
precision lookup → rounding → notional and minimum-capital floors → venue
submission, with the venue-call trace returned alongside the result. -/
def executeTrade (cfg : RouterConfig) (env : RouterEnv) (cache : Option InstrumentInfo)
    (params : TradeParams) : TradeResult × List RouterCall :=
  let side := if params.signal = TradeSignal.LONG ∨ params.signal = TradeSignal.CLOSE_SHORT
    then "BUY" else "SELL"
  let rp := calculateRiskPhysics cfg params.signal params.currentPrice params.atr
    params.walletBalance (params.leverage.getD cfg.defaultLeverage)
    (params.riskPercent.getD cfg.defaultRiskPercent)
    (params.rewardRisk.getD cfg.defaultRewardRisk)
  if rp.isValid = false then
    ({ success := false, exchange := cfg.defaultExchange, orderId := none,
       symbol := params.symbol, side := side, type := "MARKET", quantity := rp.positionSize,
       price := none, takeProfit := none, stopLoss := none, status := "REJECTED",
       message := "Risk validation failed", timestamp := 0 }, [])
  else
    let ii := getInstrumentInfoR cfg env cache params.symbol
    match ii.1 with
    | .error e =>
      ({ success := false, exchange := cfg.defaultExchange, orderId := none,
         symbol := params.symbol, side := side, type := "MARKET", quantity := 0,
         price := none, takeProfit := none, stopLoss := none, status := "ERROR",
         message := "Trade execution error: " ++ e, timestamp := 0 }, ii.2)
    | .ok info =>
      let roundedQty := routerRoundQty rp.positionSize info.qtyStep
      let roundedPrice := routerRoundPrice params.currentPrice info.tickSize
      let roundedTP := routerRoundPrice rp.takeProfit info.tickSize
      let roundedSL := routerRoundPrice rp.stopLoss info.tickSize
      let notionalValue := roundedQty * roundedPrice
      if notionalValue < info.minNotional then
        ({ success := false, exchange := cfg.defaultExchange, orderId := none,
           symbol := params.symbol, side := side, type := "MARKET", quantity := roundedQty,
           price := none, takeProfit := none, stopLoss := none, status := "REJECTED",
           message := "Notional value below minimum", timestamp := 0 }, ii.2)
      else if notionalValue < cfg.minCapitalRequired then
        ({ success := false, exchange := cfg.defaultExchange, orderId := none,
           symbol := params.symbol, side := side, type := "MARKET", quantity := roundedQty,
           price := none, takeProfit := none, stopLoss := none, status := "REJECTED",
           message := "Trade value below minimum capital requirement", timestamp := 0 }, ii.2)
      else
        match cfg.defaultExchange with
        | .mexc =>
          let r := executeMexcTrade cfg env params roundedQty roundedPrice roundedTP roundedSL
          (r.1, ii.2 ++ r.2)
        | .bybit =>
          let r := executeBybitTrade cfg env params roundedQty roundedPrice roundedTP roundedSL
          (r.1, ii.2 ++ r.2)

-- ==================== bot-state.ts (shutdown sub-state) ====================

/-- A live `Position` (`types.ts`), reduced to the fields the shutdown
protocol and state store touch. -/
structure Position where
  id : String
  symbol : String
  exchange : Exchange
  side : Direction
  size : ℚ
  entry_price : ℚ
  current_price : Option ℚ
  leverage : ℚ
  margin : ℚ
  unrealized_pnl : Option ℚ
  stop_loss : Option ℚ
  take_profit : Option ℚ
  status : String
  opened_at : ℕ
deriving DecidableEq

/-- The store's private `shutdownState` record. -/
structure ShutdownState where
  isShuttingDown : Bool
  shutdownTimestamp : Option ℕ
  shutdownReason : Option String
  positionsBeforeShutdown : List Position
  positionsUpdated : List Position
  errors : List String
  shutdownComplete : Bool
deriving DecidableEq

/-- The slice of `BotStateManager` state the shutdown protocol interacts
with: the status string, the active-position set, and the shutdown record. -/
structure BotStore where
  status : String
  activePositions : List Position
  shutdown : ShutdownState
deriving DecidableEq

/-- `BotStateManager.initiateShutdown`: records reason and timestamp, snapshots
the active positions, clears the error list, resets `shutdownComplete`, and
sets the status to `stopping`.  (`positionsUpdated` is not reset, as in the
source.) -/
def initiateShutdown (st : BotStore) (reason : String) (now : ℕ) : BotStore :=
  { st with
    status := "stopping"
    shutdown :=
      { st.shutdown with
        isShuttingDown := true
        shutdownTimestamp := some now
        shutdownReason := some reason
        positionsBeforeShutdown := st.activePositions
        errors := []
        shutdownComplete := false } }

/-- `BotStateManager.setShutdownPositionsFetched`. -/
def setShutdownPositionsFetched (st : BotStore) (positions : List Position) : BotStore :=
  { st with shutdown := { st.shutdown with positionsBeforeShutdown := positions } }

/-- `BotStateManager.addShutdownPositionUpdated`. -/
def addShutdownPositionUpdated (st : BotStore) (position : Position)
    (newSL newTP : Option ℚ) : BotStore :=
  let updatedPosition :=
    { position with
      stop_loss := match newSL with | some v => some v | none => position.stop_loss
      take_profit := match newTP with | some v => some v | none => position.take_profit }
  { st with
    shutdown := { st.shutdown with positionsUpdated := st.shutdown.positionsUpdated ++ [updatedPosition] } }

/-- `BotStateManager.addShutdownError`. -/
def addShutdownError (st : BotStore) (error : String) : BotStore :=
  { st with shutdown := { st.shutdown with errors := st.shutdown.errors ++ [error] } }

/-- `BotStateManager.completeShutdown`: sets `shutdownComplete`, clears
`isShuttingDown`, and moves the status back to `idle`. -/
def completeShutdown (st : BotStore) : BotStore :=
  { st with
    status := "idle"
    shutdown := { st.shutdown with shutdownComplete := true, isShuttingDown := false } }

-- ==================== immortal-exit.ts ====================

/-- `ImmortalExitConfig`. -/
structure ImmortalExitConfig where
  exchange : Exchange
  defaultAtrMultiplierSL : ℚ
  defaultAtrMultiplierTP : ℚ
  maxRetries : ℕ
  retryDelayMs : ℕ

/-- An element of `ExecutionRouter.getPositions`'s result. -/
structure RouterPosition where
  symbol : String
  side : String
  size : ℚ
  entryPrice : ℚ
  unrealizedPnl : ℚ

/-- Oracle for the external calls the shutdown protocol makes:
`getPositionsResult n` is the outcome of the (n+1)-st `router.getPositions`
attempt, `getKlines s` the kline fetch for symbol `s` (already mapped to
candles, in the venue's order), `setTradingStop s n` the outcome of the
(n+1)-st TP/SL update attempt for `s` (a router result with `success:false`
is thrown by the protocol as its message, hence folded into `Except.error`),
and `now` stands for `Date.now()`. -/
structure MarketEnv where
  getPositionsResult : ℕ → Except String (List RouterPosition)
  getKlines : String → Except String (List Candle)
  setTradingStop : String → ℕ → Except String Unit
  now : ℕ

/-- Venue calls made by the shutdown protocol. -/
inductive VenueCall where
  | getPositions (attempt : ℕ)
  | getKlines (symbol : String)
  | setTradingStop (symbol : String) (attempt : ℕ)
deriving DecidableEq

/-- Whether a venue call is a kline (market-data) fetch. -/
def VenueCall.isGetKlines : VenueCall → Bool
  | .getKlines _ => true
  | _ => false

/-- The Position-format conversion in `fetchOpenPositions` (index-paired):
`side.toUpperCase()` is modelled character-wise; venue positions carry no
protective levels, so `stop_loss`/`take_profit` are absent. -/
def toPosition (cfg : ImmortalExitConfig) (now : ℕ) (ip : ℕ × RouterPosition) : Position :=
  let p := ip.2
  let upper := String.mk (p.side.data.map Char.toUpper)
  { id := p.symbol ++ "-" ++ toString now ++ "-" ++ toString ip.1
    symbol := p.symbol
    exchange := cfg.exchange
    side := if upper = "BUY" ∨ upper = "LONG" then Direction.LONG else Direction.SHORT
    size := p.size
    entry_price := p.entryPrice
    current_price := some p.entryPrice
    leverage := 1
    margin := p.size * p.entryPrice
    unrealized_pnl := some p.unrealizedPnl
    stop_loss := none
    take_profit := none
    status := "open"
    opened_at := now }

/-- The retry loop of `ImmortalExitProtocol.fetchOpenPositions`: `fuel`
remaining attempts starting at attempt index `attempt`; on exhaustion the
locally cached positions are the fallback (no venue call for the fallback). -/
def fetchOpenPositionsAux (cfg : ImmortalExitConfig) (env : MarketEnv)
    (localPositions : List Position) : ℕ → ℕ → List Position × List VenueCall
  | 0, _ => (localPositions, [])
  | fuel + 1, attempt =>
    match env.getPositionsResult attempt with
    | .ok ps => (ps.enum.map (toPosition cfg env.now), [VenueCall.getPositions attempt])
    | .error _ =>
      let rest := fetchOpenPositionsAux cfg env localPositions fuel (attempt + 1)
      (rest.1, VenueCall.getPositions attempt :: rest.2)

/-- `ImmortalExitProtocol.fetchOpenPositions`. -/
def fetchOpenPositions (cfg : ImmortalExitConfig) (env : MarketEnv) (st : BotStore) :
    List Position × List VenueCall :=
  fetchOpenPositionsAux cfg env st.activePositions cfg.maxRetries 0

/-- Fresh market data for one symbol. -/
structure MarketData where
  currentPrice : ℚ
  atr : ℚ

/-- `ImmortalExitProtocol.fetchMarketData` (Bybit branch): one kline fetch; a
thrown fetch is caught and yields `none`, fewer than 15 klines yield `none`,
otherwise the ATR over the returned candles and the close of the first
(most recent) kline.  (The `[]` case is unreachable under `¬(length < 15)`.) -/
def fetchMarketData (env : MarketEnv) (symbol : String) : Option MarketData :=
  match env.getKlines symbol with
  | .error _ => none
  | .ok klines =>
    if klines.length < 15 then none
    else
      match klines with
      | [] => none
      | k :: _ => some { currentPrice := k.close, atr := calculate_atr klines 14 }

/-- The `ReevaluatedPosition` record. -/
structure ReevaluatedPosition where
  position : Position
  newSL : ℚ
  newTP : ℚ
  oldSL : Option ℚ
  oldTP : Option ℚ
  updated : Bool
  error : Option String
deriving DecidableEq

/-- The signal-like object built in `reevaluatePosition` for the risk-physics
call. -/
def signalForCalc (position : Position) (md : MarketData) : Signal :=
  { id := some position.id
    symbol := position.symbol
    strategy := "IMMORTAL_EXIT"
    direction := position.side
    win_probability := 1/2
    expected_move_pct := md.atr / md.currentPrice * 100
    regime := "RANGING"
    ev_score := some 0
    kelly_score := some 0
    confidence := some 1
    current_price := some md.currentPrice
    atr := some md.atr
    timestamp := 0 }

/-- `ImmortalExitProtocol.reevaluatePosition`: a failed market-data fetch or a
throwing `calculate_tp_sl` is caught here and recorded on the returned
record (`updated := false`); the `!oldSL ||` JS-falsiness check treats both
absent and zero protective levels as "changed".  The protocol always uses a
default-config `RiskPhysics` instance. -/
def reevaluatePosition (cfg : ImmortalExitConfig) (env : MarketEnv) (position : Position) :
    ReevaluatedPosition :=
  match fetchMarketData env position.symbol with
  | none =>
    { position := position
      newSL := position.stop_loss.getD 0
      newTP := position.take_profit.getD 0
      oldSL := none
      oldTP := none
      updated := false
      error := some "Failed to fetch market data" }
  | some md =>
    match RiskPhysics.calculate_tp_sl DEFAULT_RISK_PHYSICS_CONFIG (signalForCalc position md)
        (some cfg.defaultAtrMultiplierTP) (some cfg.defaultAtrMultiplierSL) with
    | .error e =>
      { position := position
        newSL := position.stop_loss.getD 0
        newTP := position.take_profit.getD 0
        oldSL := none
        oldTP := none
        updated := false
        error := some e }
    | .ok riskLevels =>
      let newSL := riskLevels.stopLossPrice
      let newTP := riskLevels.takeProfitPrice
      let slChanged :=
        match position.stop_loss with
        | none => true
        | some o => if o = 0 then true else decide (1/100 < |o - newSL| / o)
      let tpChanged :=
        match position.take_profit with
        | none => true
        | some o => if o = 0 then true else decide (1/100 < |o - newTP| / o)
      { position := { position with current_price := some md.currentPrice }
        newSL := newSL
        newTP := newTP
        oldSL := position.stop_loss
        oldTP := position.take_profit
        updated := slChanged || tpChanged
        error := none }

/-- The retry loop of `ImmortalExitProtocol.updatePositionOnExchange`; on
exhaustion the last error (or the generic message) is thrown. -/
def updatePositionOnExchangeAux (env : MarketEnv) (symbol : String) (lastErr : Option String) :
    ℕ → ℕ → Except String Unit × List VenueCall
  | 0, _ => (.error (lastErr.getD "Failed to update position"), [])
  | fuel + 1, attempt =>
    match env.setTradingStop symbol attempt with
    | .ok _ => (.ok (), [VenueCall.setTradingStop symbol attempt])
    | .error e =>
      let rest := updatePositionOnExchangeAux env symbol (some e) fuel (attempt + 1)
      (rest.1, VenueCall.setTradingStop symbol attempt :: rest.2)

/-- `ImmortalExitProtocol.updatePositionOnExchange` (the TP/SL values travel
inside the oracle's per-symbol outcome). -/
def updatePositionOnExchange (cfg : ImmortalExitConfig) (env : MarketEnv) (position : Position)
    (newSL newTP : ℚ) : Except String Unit × List VenueCall :=
  let _ := newSL
  let _ := newTP
  updatePositionOnExchangeAux env position.symbol none cfg.maxRetries 0

/-- Step 3 of `execute`: for each re-evaluated position flagged `updated`,
push the new TP/SL with retries; a success is recorded via
`addShutdownPositionUpdated`, a final failure via `addShutdownError`;
positions not flagged are skipped. -/
def runUpdates (cfg : ImmortalExitConfig) (env : MarketEnv) :
    List ReevaluatedPosition → BotStore → BotStore × List VenueCall
  | [], st => (st, [])
  | r :: rs, st =>
    if r.updated then
      let u := updatePositionOnExchange cfg env r.position r.newSL r.newTP
      let st1 :=
        match u.1 with
        | .ok _ => addShutdownPositionUpdated st r.position (some r.newSL) (some r.newTP)
        | .error e => addShutdownError st e
      let rest := runUpdates cfg env rs st1
      (rest.1, u.2 ++ rest.2)
    else runUpdates cfg env rs st

/-- State of an `ImmortalExitProtocol` instance together with the store:
`protoShuttingDown` is the instance's private re-entrancy flag
(`this.isShuttingDown`), distinct from the store's shutdown record. -/
structure ImmortalState where
  protoShuttingDown : Bool
  store : BotStore
deriving DecidableEq

/-- `ImmortalExitProtocol.execute`.  The re-entrancy guard returns untouched
state and makes no venue call.  Otherwise: mark the flag, initiate shutdown
in the store, fetch positions (with retry and local fallback), record them;
on an empty set complete immediately; otherwise re-evaluate every position
(each making exactly one kline fetch; `reevaluatePosition` never throws, so
the per-position catch and `addShutdownError` call in this loop are dead
code), push updates for flagged positions, and complete.  Notifications and
logging do not touch the store.  Nothing inside the top-level `try` can
still throw after the above, so the catch branch (which would also end in
`completeShutdown`) is unreachable and not modelled. -/
def ImmortalExitProtocol.execute (cfg : ImmortalExitConfig) (env : MarketEnv)
    (st : ImmortalState) (reason : String) : ImmortalState × List VenueCall :=
  if st.protoShuttingDown then (st, [])
  else
    let store0 := initiateShutdown st.store reason env.now
    let fetched := fetchOpenPositions cfg env store0
    let positions := fetched.1
    let store1 := setShutdownPositionsFetched store0 positions
    if positions.isEmpty then
      ({ protoShuttingDown := true, store := completeShutdown store1 }, fetched.2)
    else
      let reevaluated := positions.map (reevaluatePosition cfg env)
      let klinesCalls := positions.map fun p => VenueCall.getKlines p.symbol
      let upd := runUpdates cfg env reevaluated store1
      ({ protoShuttingDown := true, store := completeShutdown upd.1 },
        fetched.2 ++ klinesCalls ++ upd.2)

-- ==================== concrete instances ====================

/-- Input signal for the C3 counterexample: price 60, LONG. -/
def sigC3 : Signal :=
  { symbol := "XUSDT", direction := Direction.LONG, current_price := some 60 }

/-- Risk levels for the C3 counterexample: stop loss 59, so the risk distance
is 1. -/
def rlC3 : RiskLevels :=
  { entryPrice := 60, takeProfitPrice := 62, stopLossPrice := 59, breakEvenPrice := 60,
    riskReward := 2, atrMultiplier := 3/2 }

/-- Concrete protocol config used by the immortal-exit witnesses. -/
def cfgW : ImmortalExitConfig :=
  { exchange := Exchange.bybit, defaultAtrMultiplierSL := 3/2, defaultAtrMultiplierTP := 2,
    maxRetries := 3, retryDelayMs := 1000 }

/-- Concrete environment used by the immortal-exit witnesses: the venue
reports no open positions. -/
def envW : MarketEnv :=
  { getPositionsResult := fun _ => .ok []
    getKlines := fun _ => .error "offline"
    setTradingStop := fun _ _ => .ok ()
    now := 0 }

/-- An idle store with no positions and a pristine shutdown record. -/
def storeW : BotStore :=
  { status := "running"
    activePositions := []
    shutdown :=
      { isShuttingDown := false, shutdownTimestamp := none, shutdownReason := none,
        positionsBeforeShutdown := [], positionsUpdated := [], errors := [],
        shutdownComplete := false } }

/-- Router config for the C7 counterexample and witness: MEXC default venue
with credentials, max capital 1000, minimum capital 15. -/
def cfgC7 : RouterConfig :=
  { defaultExchange := Exchange.mexc, defaultLeverage := 10, defaultRiskPercent := 1,
    defaultRewardRisk := 2, maxCapitalPerTrade := 1000, minCapitalRequired := 15,
    clientConfigured := true }

/-- Router environment for the C7 counterexample: the instrument lookup
succeeds and reports a huge minimum notional, so the notional floor check
rejects the trade after the lookup call. -/
def envC7 : RouterEnv :=
  { instrumentLookup := .ok (some { tickSize := 1/100, qtyStep := 1/1000, minNotional := 1000000 })
    setLeverageResult := .ok ()
    placeOrderResult := .ok { orderId := "oid", status := "FILLED" } }

/-- Trade request for the C7 counterexample: a valid risk computation
(balance 1000, risk 1%, ATR 2, price 100). -/
def paramsC7 : TradeParams :=
  { signal := TradeSignal.LONG, symbol := "BTCUSDT", currentPrice := 100, atr := 2,
    walletBalance := 1000 }

/-- Trade request for the C7 witness: a zero wallet balance makes the
computed margin fall below the minimum, so risk validation fails. -/
def paramsC7W : TradeParams :=
  { signal := TradeSignal.LONG, symbol := "BTCUSDT", currentPrice := 100, atr := 2,
    walletBalance := 0 }

/-- Fifteen identical candles (high 2, low 1, close 2): enough for the
protocol's ATR window, with ATR 1 and current price 2. -/
def klinesC2 : List Candle :=
  List.replicate 15 { timestamp := 0, open_ := 1, high := 2, low := 1, close := 2, volume := 1 }

/-- First venue position for the C2 scenario (its market data will fail). -/
def rpA : RouterPosition :=
  { symbol := "AAAUSDT", side := "Buy", size := 1, entryPrice := 2, unrealizedPnl := 0 }

/-- Second venue position for the C2 scenario (its market data succeeds). -/
def rpB : RouterPosition :=
  { symbol := "BBBUSDT", side := "Buy", size := 1, entryPrice := 2, unrealizedPnl := 0 }

/-- Environment for the C2 scenario: the position fetch succeeds first try
with two positions, the kline fetch throws for the first symbol only, and
every TP/SL update is accepted. -/
def envC2 : MarketEnv :=
  { getPositionsResult := fun n => if n = 0 then .ok [rpA, rpB] else .error "venue down"
    getKlines := fun s => if s = "AAAUSDT" then .error "boom" else .ok klinesC2
    setTradingStop := fun _ _ => .ok ()
    now := 7 }

/-- Fresh protocol state over the idle store for the C2 scenario. -/
def stC2 : ImmortalState := { protoShuttingDown := false, store := storeW }

-- ==================== helper lemmas ====================

/-- Characterisation used to evaluate `ceilNegLog10` at concrete arguments:
if `10^(-p) ≤ q < 10^(1-p)` then `⌈-log10 q⌉ = p`. -/
theorem ceilNegLog10_eq {q : ℚ} {p : ℤ} (h0 : 0 < q) (h1 : (10 : ℚ) ^ (-p) ≤ q)
    (h2 : q < (10 : ℚ) ^ (1 - p)) : ceilNegLog10 q = p := by
  have hb : 1 < (10 : ℕ) := by norm_num
  have hcast : ((10 : ℕ) : ℚ) = (10 : ℚ) := by norm_num
  have e1 : -p ≤ Int.log 10 q := by
    refine (Int.zpow_le_iff_le_log hb h0).mp ?_
    rw [hcast]
    exact h1
  have e2 : Int.log 10 q < 1 - p := by
    refine (Int.lt_zpow_iff_log_lt hb h0).mp ?_
    rw [hcast]
    exact h2
  unfold ceilNegLog10
  omega

theorem ceilNegLog10_tenth : ceilNegLog10 (1/10) = 1 := by
  refine ceilNegLog10_eq (by norm_num) ?_ ?_ <;> norm_num

theorem ceilNegLog10_quarter : ceilNegLog10 (1/4) = 1 := by
  refine ceilNegLog10_eq (by norm_num) ?_ ?_ <;> norm_num

theorem ceilNegLog10_hundredth : ceilNegLog10 (1/100) = 2 := by
  refine ceilNegLog10_eq (by norm_num) ?_ ?_ <;> norm_num

theorem ceilNegLog10_thousandth : ceilNegLog10 (1/1000) = 3 := by
  refine ceilNegLog10_eq (by norm_num) ?_ ?_ <;> norm_num

/-- When the step is exactly representable at the precision `toFixed` uses
(`step · 10^p` an integer, `p = max(0, ⌈-log10 step⌉)`), rounding down to the
step is the exact `⌊x/step⌋ · step`: the `toFixed` pass is the identity. -/
theorem round_to_qty_step_down_eq {x step : ℚ} (hstep : 0 < step)
    (hden : (step * 10 ^ (max 0 (ceilNegLog10 step)).toNat).den = 1) :
    round_to_qty_step x step RoundMode.down = .ok ((⌊x / step⌋ : ℚ) * step) := by
  unfold round_to_qty_step
  rw [if_neg (not_le.mpr hstep)]
  have hstep' : step ≠ 0 := ne_of_gt hstep
  set p := (max 0 (ceilNegLog10 step)).toNat with hp
  have h1 : x * (1 / step) = x / step := by ring
  have h2 : ((⌊x / step⌋ : ℚ)) / (1 / step) = (⌊x / step⌋ : ℚ) * step := by
    field_simp
  have hZ : ((step * 10 ^ p).num : ℚ) = step * 10 ^ p :=
    (Rat.den_eq_one_iff _).mp hden
  have hpow : (10 : ℚ) ^ p ≠ 0 := by positivity
  simp only [h1, h2, jsToFixed]
  congr 1
  have h3 : (⌊x / step⌋ : ℚ) * step * 10 ^ p = ((⌊x / step⌋ * (step * 10 ^ p).num : ℤ) : ℚ) := by
    push_cast
    rw [hZ]
    ring
  rw [h3, show ((⌊x / step⌋ * (step * 10 ^ p).num : ℤ) : ℚ) + 1/2
      = ((⌊x / step⌋ * (step * 10 ^ p).num : ℤ) : ℚ) + ((1:ℚ)/2) from rfl,
    Int.floor_int_add]
  have : (⌊(1 : ℚ)/2⌋ : ℤ) = 0 := by norm_num
  rw [this, add_zero]
  push_cast
  rw [hZ]
  field_simp
  ring

/-- Down-rounding to a positive step never exceeds the input (before the
`toFixed` pass). -/
theorem floor_div_mul_le {x step : ℚ} (hstep : 0 < step) : (⌊x / step⌋ : ℚ) * step ≤ x := by
  have h := Int.floor_le (x / step)
  calc (⌊x / step⌋ : ℚ) * step ≤ (x / step) * step := by
        exact mul_le_mul_of_nonneg_right h (le_of_lt hstep)
    _ = x := by field_simp

-- ==================== claim theorems ====================

/-- Claim C9: for every win probability and every reward-to-risk input,
including zero and negative reward-to-risk,
`AlphaRanker.calculate_kelly_fraction` returns a value in `[0, 0.25]`. -/
theorem C9_kelly_fraction_bounds (winProbability rewardToRisk : ℚ) :
    0 ≤ AlphaRanker.calculate_kelly_fraction winProbability rewardToRisk ∧
      AlphaRanker.calculate_kelly_fraction winProbability rewardToRisk ≤ 1/4 := by
  unfold AlphaRanker.calculate_kelly_fraction
  split
  · norm_num
  · constructor
    · exact le_max_left 0 _
    · exact max_le (by norm_num) (min_le_left _ _)

/-- Claim C10: for every period `p ≥ 1` and candle list with fewer than
`p + 1` candles, `calculate_atr` returns the insufficient-data sentinel 0
rather than failing. -/
theorem C10_atr_insufficient_data (candles : List Candle) (period : ℕ)
    (hperiod : 1 ≤ period) (hlen : candles.length < period + 1) :
    calculate_atr candles period = 0 := by
  unfold calculate_atr
  rw [if_pos hlen]

/-- Witness for C10 at `period = 14` and the empty candle list. -/
theorem C10_atr_insufficient_data_witness :
    1 ≤ 14 ∧ ([] : List Candle).length < 14 + 1 ∧ calculate_atr [] 14 = 0 :=
  ⟨by norm_num, by norm_num,
    C10_atr_insufficient_data [] 14 (by norm_num) (by norm_num)⟩

/-- Claim C4: for every signal with positive (effective) entry price,
positive ATR, and positive TP and SL multipliers,
`RiskPhysics.calculate_tp_sl` succeeds and returns
`takeProfitPrice > entryPrice > stopLossPrice` for LONG and
`takeProfitPrice < entryPrice < stopLossPrice` for SHORT. -/
theorem C4_tp_sl_side_correctness (cfg : RiskPhysicsConfig) (signal : Signal) (tpM slM : ℚ)
    (hentry : 0 < signal.current_price.getD (signal.entry_price.getD 0))
    (hatr : 0 < signal.atr.getD 0) (htp : 0 < tpM) (hsl : 0 < slM) :
    ∃ rl, RiskPhysics.calculate_tp_sl cfg signal (some tpM) (some slM) = .ok rl ∧
      rl.entryPrice = signal.current_price.getD (signal.entry_price.getD 0) ∧
      (signal.direction = Direction.LONG →
        rl.stopLossPrice < rl.entryPrice ∧ rl.entryPrice < rl.takeProfitPrice) ∧
      (signal.direction = Direction.SHORT →
        rl.takeProfitPrice < rl.entryPrice ∧ rl.entryPrice < rl.stopLossPrice) := by
  unfold RiskPhysics.calculate_tp_sl
  rw [if_neg (ne_of_gt hentry), if_neg (ne_of_gt hatr)]
  set entry := signal.current_price.getD (signal.entry_price.getD 0)
  set atr := signal.atr.getD 0
  have htpd : 0 < atr * tpM := mul_pos hatr htp
  have hsld : 0 < atr * slM := mul_pos hatr hsl
  refine ⟨_, rfl, ?_, ?_, ?_⟩
  · cases signal.direction <;> simp
  · intro hdir
    rw [hdir]
    constructor <;> simp <;> linarith
  · intro hdir
    rw [hdir]
    constructor <;> simp <;> linarith

/-- Witness for C4 at the spec's example: entry 50000, ATR 100, LONG,
multipliers 2 and 1.5. -/
theorem C4_tp_sl_side_correctness_witness :
    (0 : ℚ) < (Signal.mk none "BTCUSDT" "" Direction.LONG 0 0 "RANGING" none none none none
        (some 50000) (some 100) 0).current_price.getD
        ((Signal.mk none "BTCUSDT" "" Direction.LONG 0 0 "RANGING" none none none none
        (some 50000) (some 100) 0).entry_price.getD 0) ∧
      (∃ rl, RiskPhysics.calculate_tp_sl DEFAULT_RISK_PHYSICS_CONFIG
          (Signal.mk none "BTCUSDT" "" Direction.LONG 0 0 "RANGING" none none none none
            (some 50000) (some 100) 0) (some 2) (some (3/2)) = .ok rl ∧
        rl.entryPrice = (Signal.mk none "BTCUSDT" "" Direction.LONG 0 0 "RANGING" none none none
            none (some 50000) (some 100) 0).current_price.getD
            ((Signal.mk none "BTCUSDT" "" Direction.LONG 0 0 "RANGING" none none none none
            (some 50000) (some 100) 0).entry_price.getD 0) ∧
        ((Signal.mk none "BTCUSDT" "" Direction.LONG 0 0 "RANGING" none none none none
            (some 50000) (some 100) 0).direction = Direction.LONG →
          rl.stopLossPrice < rl.entryPrice ∧ rl.entryPrice < rl.takeProfitPrice) ∧
        ((Signal.mk none "BTCUSDT" "" Direction.LONG 0 0 "RANGING" none none none none
            (some 50000) (some 100) 0).direction = Direction.SHORT →
          rl.takeProfitPrice < rl.entryPrice ∧ rl.entryPrice < rl.stopLossPrice)) :=
  ⟨by norm_num,
    C4_tp_sl_side_correctness DEFAULT_RISK_PHYSICS_CONFIG _ 2 (3/2) (by norm_num) (by norm_num)
      (by norm_num) (by norm_num)⟩

/-- Evaluation of the rounding quirk: down-rounding 0.25 to the step 0.25
yields 0.3, because `toFixed(1)` re-rounds the exact value 0.25 upward. -/
theorem round_quarter_eval :
    round_to_qty_step (1/4) (1/4) RoundMode.down = .ok (3/10) := by
  unfold round_to_qty_step jsToFixed
  rw [if_neg (by norm_num)]
  simp only [ceilNegLog10_quarter]
  norm_num

/-- Claim C5, counterexample: `round_to_qty_step(x, step, 'down') ≤ x` fails
at `x = step = 0.25` (the result is 0.3). -/
theorem C5_round_down_counterexample :
    round_to_qty_step (1/4) (1/4) RoundMode.down = .ok (3/10) ∧ ¬ ((3/10 : ℚ) ≤ 1/4) :=
  ⟨round_quarter_eval, by norm_num⟩

/-- Claim C5 (amended): for every quantity `x ≥ 0` and every positive step
that is exactly representable at the precision `toFixed` uses
(`step · 10^(max 0 (⌈-log10 step⌉))` an integer — in particular every
power of ten), `round_to_qty_step(x, step, 'down')` returns a value `≤ x`. -/
theorem C5_round_down_le (x step : ℚ) (hx : 0 ≤ x) (hstep : 0 < step)
    (hden : (step * 10 ^ (max 0 (ceilNegLog10 step)).toNat).den = 1) :
    ∀ q, round_to_qty_step x step RoundMode.down = .ok q → q ≤ x := by
  rw [round_to_qty_step_down_eq hstep hden]
  intro q hq
  cases hq
  exact floor_div_mul_le hstep

/-- Witness for the amended C5 at the spec example `x = 0.12345`,
`step = 0.001` (result 0.123). -/
theorem C5_round_down_le_witness :
    (0 : ℚ) ≤ 12345/100000 ∧ (0 : ℚ) < 1/1000 ∧
      ((1/1000 : ℚ) * 10 ^ (max 0 (ceilNegLog10 (1/1000))).toNat).den = 1 ∧
      (∀ q, round_to_qty_step (12345/100000) (1/1000) RoundMode.down = .ok q →
        q ≤ 12345/100000) := by
  have hden : ((1/1000 : ℚ) * 10 ^ (max 0 (ceilNegLog10 (1/1000))).toNat).den = 1 := by
    rw [ceilNegLog10_thousandth, show (max (0:ℤ) 3).toNat = 3 from rfl]
    norm_num
  exact ⟨by norm_num, by norm_num, hden,
    C5_round_down_le (12345/100000) (1/1000) (by norm_num) (by norm_num) hden⟩

/-- Claim C3, counterexample: with the default config (max capital 15 USDT),
price 60, stop loss 59 and quantity step 0.25, the unclamped size is
min(0.3, 15/60) = 0.25, which the step rounding turns into 0.3, giving
`positionSize = 0.3 · 60 = 18 > 15`. -/
theorem C3_position_size_counterexample :
    RiskPhysics.calculate_position_size DEFAULT_RISK_PHYSICS_CONFIG sigC3 rlC3 (1/100) (1/4) =
        .ok { capital := 15, positionSize := 18, quantity := 3/10, leverage := 2 } ∧
      ¬ ((18 : ℚ) ≤ DEFAULT_RISK_PHYSICS_CONFIG.maxCapitalPerTrade) := by
  constructor
  · unfold RiskPhysics.calculate_position_size
    simp only [sigC3, rlC3, DEFAULT_RISK_PHYSICS_CONFIG, Option.getD_some]
    rw [if_neg (by norm_num)]
    rw [if_neg (show ¬ |(60:ℚ) - 59| = 0 by norm_num)]
    have hmin : ((15:ℚ) * (2/100) / |(60:ℚ) - 59| ⊓ (15:ℚ) / 60) = 1/4 := by
      rw [show |(60:ℚ) - 59| = 1 from by norm_num]
      rw [min_eq_right (by norm_num)]
      norm_num
    rw [hmin, round_quarter_eval]
    simp only [Except.ok.injEq, PositionSizing.mk.injEq]
    norm_num [min_def]
    rw [show ⌈(6:ℚ)/5⌉ = (2:ℤ) from by rw [Int.ceil_eq_iff] <;> norm_num]
    norm_num
  · norm_num [DEFAULT_RISK_PHYSICS_CONFIG]

/-- Claim C3 (amended): for every signal with positive (effective) current
price, every risk-levels record, and every positive quantity step that is
exactly representable at the precision `toFixed` uses (in particular every
power of ten), `calculate_position_size` succeeds and its `positionSize`
does not exceed the configured `maxCapitalPerTrade`. -/
theorem C3_position_size_capital_ceiling (cfg : RiskPhysicsConfig) (signal : Signal)
    (riskLevels : RiskLevels) (tickSize step : ℚ)
    (hprice : 0 < signal.current_price.getD (signal.entry_price.getD 0)) (hstep : 0 < step)
    (hden : (step * 10 ^ (max 0 (ceilNegLog10 step)).toNat).den = 1) :
    ∃ ps, RiskPhysics.calculate_position_size cfg signal riskLevels tickSize step = .ok ps ∧
      ps.positionSize ≤ cfg.maxCapitalPerTrade := by
  unfold RiskPhysics.calculate_position_size
  rw [if_neg (ne_of_gt hprice)]
  simp only [round_to_qty_step_down_eq hstep hden]
  set price := signal.current_price.getD (signal.entry_price.getD 0) with hpricedef
  set riskDistance := |price - riskLevels.stopLossPrice| with hrd
  set ps1 := if riskDistance = 0 then cfg.maxCapitalPerTrade / price
    else min (cfg.maxCapitalPerTrade * (2/100) / riskDistance) (cfg.maxCapitalPerTrade / price)
    with hps1
  have hle : ps1 ≤ cfg.maxCapitalPerTrade / price := by
    rw [hps1]
    split
    · exact le_refl _
    · exact min_le_right _ _
  refine ⟨_, rfl, ?_⟩
  have hq : (⌊ps1 / step⌋ : ℚ) * step ≤ cfg.maxCapitalPerTrade / price :=
    le_trans (floor_div_mul_le hstep) hle
  calc (⌊ps1 / step⌋ : ℚ) * step * price
      ≤ (cfg.maxCapitalPerTrade / price) * price :=
        mul_le_mul_of_nonneg_right hq (le_of_lt hprice)
    _ = cfg.maxCapitalPerTrade := div_mul_cancel₀ _ (ne_of_gt hprice)

/-- Witness for the amended C3: price 2, stop loss 1, step 0.001 under the
default config. -/
theorem C3_position_size_capital_ceiling_witness :
    (0 : ℚ) < (Signal.mk none "XUSDT" "" Direction.LONG 0 0 "RANGING" none none none none
        (some 2) none 0).current_price.getD
        ((Signal.mk none "XUSDT" "" Direction.LONG 0 0 "RANGING" none none none none
        (some 2) none 0).entry_price.getD 0) ∧
      (∃ ps, RiskPhysics.calculate_position_size DEFAULT_RISK_PHYSICS_CONFIG
          (Signal.mk none "XUSDT" "" Direction.LONG 0 0 "RANGING" none none none none
            (some 2) none 0)
          (RiskLevels.mk 2 4 1 2 2 (3/2)) (1/100) (1/1000) = .ok ps ∧
        ps.positionSize ≤ DEFAULT_RISK_PHYSICS_CONFIG.maxCapitalPerTrade) := by
  have hden : ((1/1000 : ℚ) * 10 ^ (max 0 (ceilNegLog10 (1/1000))).toNat).den = 1 := by
    rw [ceilNegLog10_thousandth, show (max (0:ℤ) 3).toNat = 3 from rfl]
    norm_num
  exact ⟨by norm_num,
    C3_position_size_capital_ceiling DEFAULT_RISK_PHYSICS_CONFIG _ _ (1/100) (1/1000)
      (by norm_num) (by norm_num) hden⟩

/-- Claim C1: for every shutdown reason and every state of positions and
venue connectivity (the oracle `env` is arbitrary, so any per-position
market-data fetch or exchange update may fail), a first call to
`ImmortalExitProtocol.execute` leaves the store's shutdown state with
`shutdownComplete = true` and `isShuttingDown = false`.  The hypothesis says
the protocol instance is not already mid-shutdown — a re-entrant call is a
no-op by the guard (claim C8) and performs no state change of its own. -/
theorem C1_shutdown_completeness (cfg : ImmortalExitConfig) (env : MarketEnv)
    (st : ImmortalState) (reason : String) (hflag : st.protoShuttingDown = false) :
    (ImmortalExitProtocol.execute cfg env st reason).1.store.shutdown.shutdownComplete = true ∧
      (ImmortalExitProtocol.execute cfg env st reason).1.store.shutdown.isShuttingDown = false := by
  unfold ImmortalExitProtocol.execute
  rw [hflag]
  simp only [Bool.false_eq_true, if_false]
  split <;> simp [completeShutdown]

/-- Witness for C1: a fresh protocol instance over the idle store. -/
theorem C1_shutdown_completeness_witness :
    (ImmortalExitProtocol.execute cfgW envW
        { protoShuttingDown := false, store := storeW } "manual").1.store.shutdown.shutdownComplete
        = true ∧
      (ImmortalExitProtocol.execute cfgW envW
        { protoShuttingDown := false, store := storeW } "manual").1.store.shutdown.isShuttingDown
        = false :=
  C1_shutdown_completeness cfgW envW { protoShuttingDown := false, store := storeW } "manual" rfl

/-- Claim C8: `execute` runs its full sequence at most once per instance:
every call leaves the re-entrancy flag set, and a call made when the flag is
already set (a second trigger, including one observed while the first run is
in flight — the source sets the flag synchronously before its first await)
returns the state unchanged and performs no venue call. -/
theorem C8_reentrancy_guard (cfg : ImmortalExitConfig) (env : MarketEnv) (st : ImmortalState)
    (reason : String) :
    (ImmortalExitProtocol.execute cfg env st reason).1.protoShuttingDown = true ∧
      (st.protoShuttingDown = true →
        ImmortalExitProtocol.execute cfg env st reason = (st, [])) := by
  constructor
  · unfold ImmortalExitProtocol.execute
    by_cases h : st.protoShuttingDown
    · rw [if_pos h]
      exact h
    · rw [if_neg h]
      simp only []
      split <;> rfl
  · intro h
    unfold ImmortalExitProtocol.execute
    rw [if_pos h]

/-- Witness for C8: a second call on an instance whose flag is already set is
a no-op with an empty venue-call trace. -/
theorem C8_reentrancy_guard_witness :
    ImmortalExitProtocol.execute cfgW envW { protoShuttingDown := true, store := storeW }
        "second" = ({ protoShuttingDown := true, store := storeW }, []) :=
  (C8_reentrancy_guard cfgW envW { protoShuttingDown := true, store := storeW } "second").2 rfl

/-- The descending comparator is transitive. -/
theorem signalLE_trans : ∀ a b c : EvaluatedSignal,
    AlphaRanker.signalLE a b = true → AlphaRanker.signalLE b c = true →
      AlphaRanker.signalLE a c = true := by
  intro a b c hab hbc
  simp only [AlphaRanker.signalLE, decide_eq_true_eq] at *
  exact le_trans hbc hab

/-- The descending comparator is total. -/
theorem signalLE_total : ∀ a b : EvaluatedSignal,
    (AlphaRanker.signalLE a b || AlphaRanker.signalLE b a) = true := by
  intro a b
  simp only [AlphaRanker.signalLE, Bool.or_eq_true, decide_eq_true_eq]
  exact le_total _ _

/-- Stability of the embedded sort, phrased per score class: the sorted list
restricted to any single combined score equals the input restricted to that
score (elements with tied scores keep their input order). -/
theorem mergeSort_filter_class (l : List EvaluatedSignal) (c : ℚ) :
    (l.mergeSort AlphaRanker.signalLE).filter
        (fun s => decide (AlphaRanker.combinedScore s = c)) =
      l.filter (fun s => decide (AlphaRanker.combinedScore s = c)) := by
  set p : EvaluatedSignal → Bool := fun s => decide (AlphaRanker.combinedScore s = c) with hp
  have hpw : (l.filter p).Pairwise (fun a b => AlphaRanker.signalLE a b = true) := by
    refine List.pairwise_of_forall_mem_list ?_
    intro a ha b hb
    have ha' : AlphaRanker.combinedScore a = c := by
      have := List.of_mem_filter ha
      rwa [hp, decide_eq_true_eq] at this
    have hb' : AlphaRanker.combinedScore b = c := by
      have := List.of_mem_filter hb
      rwa [hp, decide_eq_true_eq] at this
    simp [AlphaRanker.signalLE, ha', hb']
  have h1 : List.Sublist (l.filter p) (l.mergeSort AlphaRanker.signalLE) :=
    List.sublist_mergeSort signalLE_trans signalLE_total hpw (List.filter_sublist l)
  have h2 : (l.filter p).filter p = l.filter p :=
    List.filter_eq_self.mpr fun a ha => (List.mem_filter.mp ha).2
  have h3 : List.Sublist (l.filter p) ((l.mergeSort AlphaRanker.signalLE).filter p) := by
    have h := h1.filter p
    rwa [h2] at h
  have h4 : ((l.mergeSort AlphaRanker.signalLE).filter p).Perm (l.filter p) :=
    (List.mergeSort_perm l AlphaRanker.signalLE).filter p
  exact (h3.eq_of_length h4.length_eq.symm).symm

/-- Claim C6: `evaluate_and_sort` returns exactly the evaluated signals
passing the three filter thresholds (`ev_score ≥ minEvScore`,
`kelly_score ≥ minKellyScore`, `net_roi > 0`, see `keepSignal`), sorted in
descending order of `0.6·ev_score + 0.4·(kelly_score·100)`
(see `combinedScore`), with tied scores kept in input order (the restriction
to each score class equals the filtered input's restriction). -/
theorem C6_evaluate_and_sort_spec (cfg : AlphaRankerConfig) (signals : List Signal)
    (orderBook : OrderBook) :
    (AlphaRanker.evaluate_and_sort cfg signals orderBook).Perm
        ((signals.map fun s => AlphaRanker.evaluate_signal cfg s orderBook).filter
          (AlphaRanker.keepSignal cfg)) ∧
      (AlphaRanker.evaluate_and_sort cfg signals orderBook).Pairwise
        (fun a b => AlphaRanker.combinedScore b ≤ AlphaRanker.combinedScore a) ∧
      ∀ c : ℚ,
        (AlphaRanker.evaluate_and_sort cfg signals orderBook).filter
            (fun s => decide (AlphaRanker.combinedScore s = c)) =
          ((signals.map fun s => AlphaRanker.evaluate_signal cfg s orderBook).filter
            (AlphaRanker.keepSignal cfg)).filter
            (fun s => decide (AlphaRanker.combinedScore s = c)) := by
  refine ⟨?_, ?_, ?_⟩
  · exact List.mergeSort_perm _ _
  · have h := List.sorted_mergeSort signalLE_trans signalLE_total
      ((signals.map fun s => AlphaRanker.evaluate_signal cfg s orderBook).filter
        (AlphaRanker.keepSignal cfg))
    refine h.imp ?_
    intro a b hab
    rwa [AlphaRanker.signalLE, decide_eq_true_eq] at hab
  · intro c
    exact mergeSort_filter_class _ c

/-- Every venue call made by the instrument-info lookup is the (read-only)
instrument-info request for the given symbol. -/
theorem getInstrumentInfoR_calls (cfg : RouterConfig) (env : RouterEnv)
    (cache : Option InstrumentInfo) (symbol : String) :
    ∀ c ∈ (getInstrumentInfoR cfg env cache symbol).2, c = RouterCall.instrumentInfo symbol := by
  intro c hc
  unfold getInstrumentInfoR at hc
  rcases cache with _ | info
  · by_cases hcf : cfg.clientConfigured = true
    · rw [if_pos hcf] at hc
      rcases hl : env.instrumentLookup with e | oinfo
      · rw [hl] at hc
        simp at hc
        exact hc
      · rcases oinfo with _ | i <;> rw [hl] at hc <;> simp at hc <;> exact hc
    · rw [if_neg hcf] at hc
      simp at hc
  · simp at hc

/-- The MEXC submission branch either succeeds or reports status ERROR. -/
theorem executeMexcTrade_status (cfg : RouterConfig) (env : RouterEnv) (params : TradeParams)
    (qty price takeProfit stopLoss : ℚ) :
    (executeMexcTrade cfg env params qty price takeProfit stopLoss).1.success = true ∨
      (executeMexcTrade cfg env params qty price takeProfit stopLoss).1.status = "ERROR" := by
  unfold executeMexcTrade
  cases hcf : cfg.clientConfigured
  · simp [hcf]
  · rcases hpo : env.placeOrderResult with e | order <;> simp [hcf, hpo]

/-- The Bybit submission branch either succeeds or reports status ERROR. -/
theorem executeBybitTrade_status (cfg : RouterConfig) (env : RouterEnv) (params : TradeParams)
    (qty price takeProfit stopLoss : ℚ) :
    (executeBybitTrade cfg env params qty price takeProfit stopLoss).1.success = true ∨
      (executeBybitTrade cfg env params qty price takeProfit stopLoss).1.status = "ERROR" := by
  unfold executeBybitTrade
  cases hcf : cfg.clientConfigured
  · simp [hcf]
  · rcases hsl : env.setLeverageResult with e | u
    · simp [hcf, hsl]
    · rcases hpo : env.placeOrderResult with e | order <;> simp [hcf, hsl, hpo]

/-- Claim C7 (amended): `executeTrade` always returns a structured result
(success, or status REJECTED, or status ERROR — the embedding is total, so
nothing is thrown past this boundary).  A risk-validation failure is
rejected before any venue interaction (empty call trace); any rejected
result — including the notional/minimum-capital floor rejections, which
happen after the instrument-precision lookup — has performed at most that
read-only instrument-info lookup, never a leverage or order call. -/
theorem C7_executeTrade_result_discipline (cfg : RouterConfig) (env : RouterEnv)
    (cache : Option InstrumentInfo) (params : TradeParams) :
    ((calculateRiskPhysics cfg params.signal params.currentPrice params.atr
        params.walletBalance (params.leverage.getD cfg.defaultLeverage)
        (params.riskPercent.getD cfg.defaultRiskPercent)
        (params.rewardRisk.getD cfg.defaultRewardRisk)).isValid = false →
      (executeTrade cfg env cache params).1.success = false ∧
        (executeTrade cfg env cache params).1.status = "REJECTED" ∧
        (executeTrade cfg env cache params).2 = []) ∧
      ((executeTrade cfg env cache params).1.success = false →
        (executeTrade cfg env cache params).1.status = "REJECTED" →
        ∀ c ∈ (executeTrade cfg env cache params).2,
          c = RouterCall.instrumentInfo params.symbol) ∧
      ((executeTrade cfg env cache params).1.success = true ∨
        (executeTrade cfg env cache params).1.status = "REJECTED" ∨
        (executeTrade cfg env cache params).1.status = "ERROR") := by
  set rp := calculateRiskPhysics cfg params.signal params.currentPrice params.atr
    params.walletBalance (params.leverage.getD cfg.defaultLeverage)
    (params.riskPercent.getD cfg.defaultRiskPercent)
    (params.rewardRisk.getD cfg.defaultRewardRisk) with hrpdef
  refine ⟨?_, ?_, ?_⟩
  · intro hinv
    unfold executeTrade
    simp only [← hrpdef]
    rw [if_pos hinv]
    exact ⟨rfl, rfl, rfl⟩
  · by_cases hinv : rp.isValid = false
    · intro _ _ c hc
      unfold executeTrade at hc
      simp only [← hrpdef] at hc
      rw [if_pos hinv] at hc
      simp at hc
    · intro hs hr c hc
      unfold executeTrade at hs hr hc
      simp only [← hrpdef] at hs hr hc
      rw [if_neg hinv] at hs hr hc
      rcases hii : (getInstrumentInfoR cfg env cache params.symbol).1 with e | info
      · rw [hii] at hr
        simp at hr
      · rw [hii] at hs hr hc
        simp only [] at hs hr hc
        set q := routerRoundQty rp.positionSize info.qtyStep with hq
        set pr := routerRoundPrice params.currentPrice info.tickSize with hpr
        set tp := routerRoundPrice rp.takeProfit info.tickSize with htp
        set sl := routerRoundPrice rp.stopLoss info.tickSize with hsl
        by_cases hn1 : q * pr < info.minNotional
        · rw [if_pos hn1] at hc
          exact getInstrumentInfoR_calls cfg env cache params.symbol c hc
        · rw [if_neg hn1] at hs hr hc
          by_cases hn2 : q * pr < cfg.minCapitalRequired
          · rw [if_pos hn2] at hc
            exact getInstrumentInfoR_calls cfg env cache params.symbol c hc
          · rw [if_neg hn2] at hs hr hc
            rcases hex : cfg.defaultExchange
            · rw [hex] at hs hr hc
              simp only [] at hs hr hc
              rcases executeMexcTrade_status cfg env params q pr tp sl with hok | herr
              · rw [hok] at hs
                simp at hs
              · rw [herr] at hr
                simp at hr
            · rw [hex] at hs hr hc
              simp only [] at hs hr hc
              rcases executeBybitTrade_status cfg env params q pr tp sl with hok | herr
              · rw [hok] at hs
                simp at hs
              · rw [herr] at hr
                simp at hr
  · unfold executeTrade
    simp only [← hrpdef]
    split
    · simp
    · rcases hii : (getInstrumentInfoR cfg env cache params.symbol).1 with e | info
      · simp
      · simp only []
        set q := routerRoundQty rp.positionSize info.qtyStep with hq
        set pr := routerRoundPrice params.currentPrice info.tickSize with hpr
        set tp := routerRoundPrice rp.takeProfit info.tickSize with htp
        set sl := routerRoundPrice rp.stopLoss info.tickSize with hsl
        split
        · simp
        · split
          · simp
          · rcases hex : cfg.defaultExchange
            · simp only []
              rcases executeMexcTrade_status cfg env params q pr tp sl with hok | herr
              · exact Or.inl hok
              · exact Or.inr (Or.inr herr)
            · simp only []
              rcases executeBybitTrade_status cfg env params q pr tp sl with hok | herr
              · exact Or.inl hok
              · exact Or.inr (Or.inr herr)

/-- Concrete risk-physics evaluation backing the C7 counterexample. -/
theorem rpC7_eval :
    calculateRiskPhysics cfgC7 TradeSignal.LONG 100 2 1000 10 1 2 =
      { entryPrice := 100, stopLoss := 97, takeProfit := 106, positionSize := 10/3,
        positionValue := 1000/3, riskAmount := 10, rewardAmount := 20, riskPercent := 1,
        leverage := 10, liquidationPrice := 91, isValid := true, validationErrors := [] } := by
  unfold calculateRiskPhysics
  norm_num [cfgC7]

/-- Claim C7, counterexample to "without any venue call having been made":
this run passes risk validation, performs the instrument-info venue call
(cache miss), and only then is rejected by the notional floor — the rejected
result's call trace is non-empty. -/
theorem C7_rejected_after_lookup_counterexample :
    (executeTrade cfgC7 envC7 none paramsC7).1.success = false ∧
      (executeTrade cfgC7 envC7 none paramsC7).1.status = "REJECTED" ∧
      (executeTrade cfgC7 envC7 none paramsC7).2 = [RouterCall.instrumentInfo "BTCUSDT"] := by
  have hrp : calculateRiskPhysics cfgC7 paramsC7.signal paramsC7.currentPrice paramsC7.atr
      paramsC7.walletBalance (paramsC7.leverage.getD cfgC7.defaultLeverage)
      (paramsC7.riskPercent.getD cfgC7.defaultRiskPercent)
      (paramsC7.rewardRisk.getD cfgC7.defaultRewardRisk) =
      { entryPrice := 100, stopLoss := 97, takeProfit := 106, positionSize := 10/3,
        positionValue := 1000/3, riskAmount := 10, rewardAmount := 20, riskPercent := 1,
        leverage := 10, liquidationPrice := 91, isValid := true, validationErrors := [] } :=
    rpC7_eval
  have hii : getInstrumentInfoR cfgC7 envC7 none paramsC7.symbol =
      (.ok { tickSize := 1/100, qtyStep := 1/1000, minNotional := 1000000 },
        [RouterCall.instrumentInfo "BTCUSDT"]) := by
    unfold getInstrumentInfoR
    simp [cfgC7, envC7, paramsC7]
  have hq : routerRoundQty (10/3) (1/1000) = 3333/1000 := by
    unfold routerRoundQty
    rw [ceilNegLog10_thousandth]
    norm_num
  have hpr : routerRoundPrice 100 (1/100) = 100 := by
    unfold routerRoundPrice
    rw [ceilNegLog10_hundredth]
    norm_num
  unfold executeTrade
  rw [hrp]
  simp only []
  rw [if_neg (by simp)]
  rw [hii]
  simp only []
  rw [hq, show paramsC7.currentPrice = (100:ℚ) from rfl, hpr]
  rw [if_pos (by norm_num)]
  exact ⟨rfl, rfl, rfl⟩

/-- Witness for the amended C7: a risk-validation failure is rejected with an
empty venue-call trace. -/
theorem C7_executeTrade_result_discipline_witness :
    (calculateRiskPhysics cfgC7 paramsC7W.signal paramsC7W.currentPrice paramsC7W.atr
        paramsC7W.walletBalance (paramsC7W.leverage.getD cfgC7.defaultLeverage)
        (paramsC7W.riskPercent.getD cfgC7.defaultRiskPercent)
        (paramsC7W.rewardRisk.getD cfgC7.defaultRewardRisk)).isValid = false ∧
      ((executeTrade cfgC7 envC7 none paramsC7W).1.success = false ∧
        (executeTrade cfgC7 envC7 none paramsC7W).1.status = "REJECTED" ∧
        (executeTrade cfgC7 envC7 none paramsC7W).2 = []) := by
  have hinv : (calculateRiskPhysics cfgC7 paramsC7W.signal paramsC7W.currentPrice paramsC7W.atr
      paramsC7W.walletBalance (paramsC7W.leverage.getD cfgC7.defaultLeverage)
      (paramsC7W.riskPercent.getD cfgC7.defaultRiskPercent)
      (paramsC7W.rewardRisk.getD cfgC7.defaultRewardRisk)).isValid = false := by
    unfold calculateRiskPhysics
    norm_num [cfgC7, paramsC7W]
  exact ⟨hinv, (C7_executeTrade_result_discipline cfgC7 envC7 none paramsC7W).1 hinv⟩

/-- Every call made by the position-fetch retry loop is a `getPositions`
request. -/
theorem fetchOpenPositionsAux_calls (cfg : ImmortalExitConfig) (env : MarketEnv)
    (localPositions : List Position) :
    ∀ fuel attempt,
      ∀ c ∈ (fetchOpenPositionsAux cfg env localPositions fuel attempt).2,
        ∃ n, c = VenueCall.getPositions n := by
  intro fuel
  induction fuel with
  | zero =>
    intro attempt c hc
    simp [fetchOpenPositionsAux] at hc
  | succ fuel ih =>
    intro attempt c hc
    unfold fetchOpenPositionsAux at hc
    rcases hres : env.getPositionsResult attempt with e | ps
    · rw [hres] at hc
      simp only [List.mem_cons] at hc
      rcases hc with hc | hc
      · exact ⟨attempt, hc⟩
      · exact ih (attempt + 1) c hc
    · rw [hres] at hc
      simp at hc
      exact ⟨attempt, hc⟩

/-- Every call made by the TP/SL-update retry loop is a `setTradingStop`
request. -/
theorem updatePositionOnExchangeAux_calls (env : MarketEnv) (symbol : String) :
    ∀ fuel (lastErr : Option String) attempt,
      ∀ c ∈ (updatePositionOnExchangeAux env symbol lastErr fuel attempt).2,
        ∃ n, c = VenueCall.setTradingStop symbol n := by
  intro fuel
  induction fuel with
  | zero =>
    intro lastErr attempt c hc
    simp [updatePositionOnExchangeAux] at hc
  | succ fuel ih =>
    intro lastErr attempt c hc
    unfold updatePositionOnExchangeAux at hc
    rcases hres : env.setTradingStop symbol attempt with e | u
    · rw [hres] at hc
      simp only [List.mem_cons] at hc
      rcases hc with hc | hc
      · exact ⟨attempt, hc⟩
      · exact ih (some e) (attempt + 1) c hc
    · rw [hres] at hc
      simp at hc
      exact ⟨attempt, hc⟩

/-- Every call made by step 3 of the protocol is a `setTradingStop` request. -/
theorem runUpdates_calls (cfg : ImmortalExitConfig) (env : MarketEnv) :
    ∀ (rs : List ReevaluatedPosition) (st : BotStore),
      ∀ c ∈ (runUpdates cfg env rs st).2, ∃ s n, c = VenueCall.setTradingStop s n := by
  intro rs
  induction rs with
  | nil =>
    intro st c hc
    simp [runUpdates] at hc
  | cons r rs ih =>
    intro st c hc
    unfold runUpdates at hc
    by_cases hu : r.updated
    · rw [if_pos hu] at hc
      simp only [List.mem_append] at hc
      rcases hc with hc | hc
      · obtain ⟨n, hn⟩ :=
          updatePositionOnExchangeAux_calls env r.position.symbol cfg.maxRetries none 0 c hc
        exact ⟨r.position.symbol, n, hn⟩
      · exact ih _ c hc
    · rw [if_neg hu] at hc
      exact ih _ c hc

/-- With at least one retry and a venue that accepts every TP/SL update, the
update loop succeeds on its first attempt. -/
theorem updatePositionOnExchange_ok (cfg : ImmortalExitConfig) (env : MarketEnv)
    (position : Position) (newSL newTP : ℚ) (hfuel : 0 < cfg.maxRetries)
    (hupd : env.setTradingStop position.symbol 0 = .ok ()) :
    (updatePositionOnExchange cfg env position newSL newTP).1 = .ok () := by
  unfold updatePositionOnExchange
  obtain ⟨fuel, hfe⟩ : ∃ f, cfg.maxRetries = f + 1 :=
    ⟨cfg.maxRetries - 1, by omega⟩
  rw [hfe]
  unfold updatePositionOnExchangeAux
  rw [hupd]

/-- When every exchange update succeeds, step 3 records updated positions but
adds no error. -/
theorem runUpdates_errors (cfg : ImmortalExitConfig) (env : MarketEnv)
    (hfuel : 0 < cfg.maxRetries) (hupd : ∀ s n, env.setTradingStop s n = .ok ()) :
    ∀ (rs : List ReevaluatedPosition) (st : BotStore),
      (runUpdates cfg env rs st).1.shutdown.errors = st.shutdown.errors := by
  intro rs
  induction rs with
  | nil => intro st; rfl
  | cons r rs ih =>
    intro st
    unfold runUpdates
    by_cases hu : r.updated
    · rw [if_pos hu]
      simp only []
      rw [updatePositionOnExchange_ok cfg env r.position r.newSL r.newTP hfuel
        (hupd r.position.symbol 0)]
      simp only []
      rw [ih]
      rfl
    · rw [if_neg hu]
      exact ih st

/-- Claim C2 (amended): on a first `execute` run (arbitrary positions and
market-data connectivity; at least one retry; every exchange TP/SL update
accepted), (1) the protocol attempts the market-data fetch for every fetched
position — the kline calls in the trace are exactly one per position, in
order; (2) a position whose market-data fetch throws gets the failure
recorded on its own re-evaluation record (`updated = false`,
`error = "Failed to fetch market data"`); and (3) the Bot State Store's
shutdown `errors` list stays empty — the market-data failure contributes no
store error entry (store entries arise only from failed exchange updates,
which the hypotheses exclude). -/
theorem C2_partial_failure_isolation (cfg : ImmortalExitConfig) (env : MarketEnv)
    (st : ImmortalState) (reason : String) (hflag : st.protoShuttingDown = false)
    (hfuel : 0 < cfg.maxRetries) (hupd : ∀ s n, env.setTradingStop s n = .ok ()) :
    ((ImmortalExitProtocol.execute cfg env st reason).2.filter VenueCall.isGetKlines =
        (fetchOpenPositions cfg env (initiateShutdown st.store reason env.now)).1.map
          (fun p => VenueCall.getKlines p.symbol)) ∧
      (∀ p ∈ (fetchOpenPositions cfg env (initiateShutdown st.store reason env.now)).1,
        ∀ e, env.getKlines p.symbol = .error e →
          (reevaluatePosition cfg env p).updated = false ∧
          (reevaluatePosition cfg env p).error = some "Failed to fetch market data") ∧
      ((ImmortalExitProtocol.execute cfg env st reason).1.store.shutdown.errors = []) := by
  have hfetchnil : ∀ l : List VenueCall, (∀ c ∈ l, ∃ n, c = VenueCall.getPositions n) →
      l.filter VenueCall.isGetKlines = [] := by
    intro l hl
    refine List.filter_eq_nil_iff.mpr ?_
    intro c hc
    obtain ⟨n, hn⟩ := hl c hc
    rw [hn]
    simp [VenueCall.isGetKlines]
  have hupdnil : ∀ l : List VenueCall, (∀ c ∈ l, ∃ s n, c = VenueCall.setTradingStop s n) →
      l.filter VenueCall.isGetKlines = [] := by
    intro l hl
    refine List.filter_eq_nil_iff.mpr ?_
    intro c hc
    obtain ⟨s, n, hn⟩ := hl c hc
    rw [hn]
    simp [VenueCall.isGetKlines]
  refine ⟨?_, ?_, ?_⟩
  · unfold ImmortalExitProtocol.execute
    rw [hflag]
    simp only [Bool.false_eq_true, if_false]
    split
    · rename_i hempty
      rw [List.isEmpty_iff] at hempty
      rw [hempty]
      simp only [List.map_nil]
      exact hfetchnil _ (fetchOpenPositionsAux_calls cfg env _ cfg.maxRetries 0)
    · simp only [List.filter_append]
      have hfl : List.filter VenueCall.isGetKlines
          (fetchOpenPositions cfg env (initiateShutdown st.store reason env.now)).2 = [] :=
        hfetchnil _ fun c hc => fetchOpenPositionsAux_calls cfg env _ cfg.maxRetries 0 c hc
      rw [hfl]
      rw [hupdnil _ (runUpdates_calls cfg env _ _)]
      rw [List.filter_eq_self.mpr ?keep]
      case keep =>
        intro c hc
        obtain ⟨p, _, hp⟩ := List.mem_map.mp hc
        rw [← hp]
        simp [VenueCall.isGetKlines]
      simp
  · intro p _ e he
    unfold reevaluatePosition fetchMarketData
    rw [he]
    exact ⟨rfl, rfl⟩
  · unfold ImmortalExitProtocol.execute
    rw [hflag]
    simp only [Bool.false_eq_true, if_false]
    split
    · rfl
    · simp only []
      show (completeShutdown (runUpdates cfg env _ _).1).shutdown.errors = []
      unfold completeShutdown
      simp only []
      rw [runUpdates_errors cfg env hfuel hupd]
      rfl

/-- Claim C2, counterexample: a run with N = 2 positions where exactly the
first position's market-data fetch throws.  The failure is caught and
recorded on that position's re-evaluation record, but the Bot State Store's
shutdown `errors` list ends the run empty — it does not contain exactly one
entry attributable to the failed position. -/
theorem C2_errors_list_counterexample :
    (fetchOpenPositions cfgW envC2 (initiateShutdown stC2.store "test" envC2.now)).1 =
        [toPosition cfgW 7 (0, rpA), toPosition cfgW 7 (1, rpB)] ∧
      envC2.getKlines (toPosition cfgW 7 (0, rpA)).symbol = .error "boom" ∧
      envC2.getKlines (toPosition cfgW 7 (1, rpB)).symbol = .ok klinesC2 ∧
      (reevaluatePosition cfgW envC2 (toPosition cfgW 7 (0, rpA))).error =
        some "Failed to fetch market data" ∧
      (ImmortalExitProtocol.execute cfgW envC2 stC2 "test").1.store.shutdown.errors = [] := by
  refine ⟨?_, rfl, rfl, rfl, ?_⟩
  · rfl
  · unfold ImmortalExitProtocol.execute
    rw [show stC2.protoShuttingDown = false from rfl]
    simp only [Bool.false_eq_true, if_false]
    split
    · rfl
    · simp only []
      show (completeShutdown (runUpdates cfgW envC2 _ _).1).shutdown.errors = []
      unfold completeShutdown
      simp only []
      rw [runUpdates_errors cfgW envC2 (by norm_num [cfgW]) (fun s n => rfl)]
      rfl

/-- Witness for the amended C2 at the concrete two-position scenario. -/
theorem C2_partial_failure_isolation_witness :
    stC2.protoShuttingDown = false ∧ 0 < cfgW.maxRetries ∧
      (ImmortalExitProtocol.execute cfgW envC2 stC2 "test").1.store.shutdown.errors = [] :=
  ⟨rfl, by norm_num [cfgW],
    (C2_partial_failure_isolation cfgW envC2 stC2 "test" rfl (by norm_num [cfgW])
      (fun _ _ => rfl)).2.2⟩
